import Mathlib

/-!
Shallow embedding of the RAG memory engine of `src/bot/memory/rag.py`
(together with `src/bot/memory/embeddings.py`).

Modelling conventions:
* SQLite rows of the `knowledge` table are `KnowledgeRow`s; the table is the
  list of rows in rowid (insertion) order, which is the order an unordered
  `SELECT` scans them in.
* The JSON `embedding` column is modelled already decoded, as
  `Option (List ℚ)`: `none` is SQL `NULL` / an empty string (falsy in the
  Python guards), `some []` is the literal `"[]"` stored by
  `store_drawing_knowledge` on embedding failure.
* The JSON `metadata` column is modelled as a record of the keys the engine
  ever reads back (`username` for the formatter, `user_id` for the
  deduplicator's LIKE filter) plus the keys `store_conversation` writes.
* External numeric kernels are passed in as function arguments: the
  embedding provider (`embed` / `qEmbed`, returning `none` on failure
  exactly as `get_embedding` / `get_query_embedding` do), the numpy cosine
  (`cosine`), the BM25 scoring function (`bm25Fn`, one score per corpus
  document), and the cross-encoder (`crossEnc`).  The outcome of a
  Gemini LLM call is passed as `Option String` (`none` models an
  exception / timeout).
* Generated identifiers (`know_<md5>_<ts>`, `draw_<md5>_<ts>`) are passed
  in as an argument, since they depend on the wall clock.
* Python `str.strip()` is modelled by `pyStrip`, `str.split()` by
  splitting on whitespace and dropping empty pieces, `list[:limit]` by
  `pySliceTo` (which keeps Python's negative-index semantics), and the
  stable `list.sort(key=..., reverse=True)` by `pySortDesc`.
-/

/-- Metadata keys of a knowledge row that the engine itself reads or
writes (`rag.py` never reads any other key back). -/
structure RagMetadata where
  username : Option String := none
  user_id : Option String := none
  channel_id : Option String := none
  guild_id : Option String := none
  original_message : Option String := none
  deriving DecidableEq

/-- One row of the `knowledge` table as created by `_init_db`. -/
structure KnowledgeRow where
  id : String
  content : String
  embedding : Option (List ℚ)
  knowledge_type : String := "general"
  source : Option String := none
  metadata : Option RagMetadata := none
  deriving DecidableEq

/-- The module-level BM25 state: `BM25_IDS`, `BM25_CORPUS` (the
`BM25Okapi` object is determined by the tokenized corpus, its scoring
math is the `bm25Fn` parameter of retrieval).  `none` models
`BM25_INDEX is None`. -/
structure Bm25State where
  ids : List String
  corpus : List String
  deriving DecidableEq

/-- The whole mutable state of the engine relevant to the claims: the
`knowledge` table plus the module-level BM25 index. -/
structure RagState where
  knowledge : List KnowledgeRow
  bm25 : Option Bm25State
  deriving DecidableEq

def emptyMetadata : RagMetadata := {}

/-- Python `lst[:limit]`: for a non-negative bound a plain prefix, for a
negative bound all but the last `|limit|` elements. -/
def pySliceTo (l : List α) (limit : Int) : List α :=
  if limit < 0 then l.take (l.length - limit.natAbs) else l.take limit.toNat

/-- Python `s.lower().split()`: case-fold, split on whitespace runs,
discard empty pieces. -/
def pyTokenize (s : String) : List String :=
  (s.toLower.split Char.isWhitespace).filter (fun w => w ≠ "")

/-- Python `s.strip()`: drop whitespace from both ends. -/
def pyStrip (s : String) : String :=
  ⟨((s.data.dropWhile Char.isWhitespace).reverse.dropWhile Char.isWhitespace).reverse⟩

/-- Python `s[:n]` on a string: the first `n` characters. -/
def pyTake (s : String) (n : Nat) : String :=
  ⟨s.data.take n⟩

/-- Python `s.replace(chr(34), "")`: remove every double-quote character. -/
def pyRemoveQuotes (s : String) : String :=
  ⟨s.data.filter (fun c => c ≠ '"')⟩

/-- Python stable `list.sort(key=key, reverse=True)`: descending by key,
ties keep their original relative order (insertion sort with a
non-strict comparison is exactly this stable order). -/
def pySortDesc (key : α → ℚ) (l : List α) : List α :=
  List.insertionSort (fun a b => key b ≤ key a) l

/-- Subtraction on ℚ written through `mkRat` so that it evaluates by
kernel reduction (the library subtraction is irreducible); proved equal
to the standard subtraction below. -/
def ratSub (a b : ℚ) : ℚ :=
  mkRat (a.num * (b.den : Int) - b.num * (a.den : Int)) (a.den * b.den)

theorem ratSub_eq_sub (a b : ℚ) : ratSub a b = a - b := by
  have ha : ((a.den : ℚ)) ≠ 0 := by exact_mod_cast a.den_nz
  have hb : ((b.den : ℚ)) ≠ 0 := by exact_mod_cast b.den_nz
  rw [ratSub, Rat.mkRat_eq_div]
  conv_rhs => rw [← Rat.num_div_den a, ← Rat.num_div_den b]
  rw [div_sub_div _ _ ha hb]
  push_cast
  ring_nf

/-- Embedding of `_rebuild_bm25_index`: re-read every row of the
`knowledge` table; when the table is empty the function returns before
touching the globals, so the previous index survives. -/
def rebuild_bm25_index (rows : List KnowledgeRow) (old : Option Bm25State) : Option Bm25State :=
  if rows.isEmpty then old
  else some { ids := rows.map (fun r => r.id), corpus := rows.map (fun r => r.content) }

/-- Columns of the `knowledge` table as created by `_init_db`
(`CREATE TABLE IF NOT EXISTS knowledge (id, content, embedding,
knowledge_type, source, metadata, created_at)`); no other code in the
repository alters this table's schema. -/
def knowledgeTableColumns : List String :=
  ["id", "content", "embedding", "knowledge_type", "source", "metadata", "created_at"]

/-- Columns referenced by the SELECT statement inside
`_is_duplicate_fact` (`SELECT content, embedding FROM knowledge WHERE
knowledge_type = 'user_fact' AND metadata LIKE ? AND is_active = 1`). -/
def dupCheckQueryColumns : List String :=
  ["content", "embedding", "knowledge_type", "metadata", "is_active"]

/-- The metadata LIKE filter of `_is_duplicate_fact`: the pattern
`%"user_id": "<uid>"%` matches the JSON serialization exactly when the
row's metadata carries that string `user_id` (a `None` caller id renders
as the pattern `"user_id": "None"`, which JSON `null` never matches). -/
def metadataUserMatch (row : KnowledgeRow) (user_id : Option String) : Bool :=
  match user_id with
  | none => false
  | some uid => (row.metadata.bind (fun m => m.user_id)) = some uid

/-- Embedding of `_is_duplicate_fact`.  `simGe a b t` is the numpy
comparison `_cosine_similarity(a, b) >= t`.  Executing the SELECT raises
`sqlite3.OperationalError` when it references a column absent from the
table's schema; the surrounding `except` handler then returns `False`
("error, assume not duplicate"). -/
def is_duplicate_fact (simGe : List ℚ → List ℚ → ℚ → Bool)
    (embed : String → Option (List ℚ))
    (new_fact : String) (user_id : Option String)
    (similarity_threshold : ℚ) (st : RagState) : Bool :=
  match embed new_fact with
  | none => false
  | some new_embedding =>
    if dupCheckQueryColumns.all (fun c => knowledgeTableColumns.contains c) then
      ((st.knowledge.filter (fun r =>
          r.knowledge_type = "user_fact" ∧ metadataUserMatch r user_id)).any
        (fun r =>
          match r.embedding with
          | none => false
          | some e => simGe new_embedding e similarity_threshold))
    else
      false

/-- Embedding of `store_knowledge`: embed the first 2000 characters; on
embedding failure return `None` with nothing written; otherwise
`INSERT OR REPLACE` the row (SQLite deletes any row with the same
primary key and appends the new row with a fresh rowid) and rebuild the
BM25 index from the updated table. -/
def store_knowledge (embed : String → Option (List ℚ)) (kid : String)
    (content : String) (knowledge_type : String)
    (source : Option String) (metadata : Option RagMetadata)
    (st : RagState) : Option String × RagState :=
  match embed (pyTake content 2000) with
  | none => (none, st)
  | some e =>
    let row : KnowledgeRow :=
      { id := kid, content := content, embedding := some e,
        knowledge_type := knowledge_type, source := source,
        metadata := some (metadata.getD emptyMetadata) }
    let rows := (st.knowledge.filter (fun r => r.id ≠ kid)) ++ [row]
    (some kid, { knowledge := rows, bm25 := rebuild_bm25_index rows st.bm25 })

/-- Result of `store_conversation`, with a flag recording whether the
Gemini fact-extraction call (`_extract_fact_from_conversation`) was
reached. -/
structure ConvOutcome where
  stored : Option String
  extractorCalled : Bool
  state : RagState
  deriving DecidableEq

/-- Embedding of `store_conversation`.  `extractResult` is the outcome
of the fact-extraction LLM call (only consulted when the call is made);
`kid` the generated knowledge id for the stored fact. -/
def store_conversation (simGe : List ℚ → List ℚ → ℚ → Bool)
    (embed : String → Option (List ℚ))
    (extractResult : Option String) (kid : String)
    (user_message gemgem_response : String)
    (user_id username channel_id guild_id : Option String)
    (st : RagState) : ConvOutcome :=
  let name := match username with
    | some u => if u = "" then "User" else u
    | none => "User"
  if (pyStrip user_message).length < 15 ∧ (pyStrip gemgem_response).length < 50 then
    { stored := none, extractorCalled := false, state := st }
  else
    match extractResult with
    | none => { stored := none, extractorCalled := true, state := st }
    | some fact =>
      if fact = "" then { stored := none, extractorCalled := true, state := st }
      else if is_duplicate_fact simGe embed fact user_id (mkRat 90 100) st then
        { stored := none, extractorCalled := true, state := st }
      else
        let meta : RagMetadata :=
          { username := some name, user_id := user_id,
            channel_id := channel_id, guild_id := guild_id,
            original_message := some (pyTake user_message 200) }
        let r := store_knowledge embed kid fact "user_fact"
          (some ("conversation_" ++ name)) (some meta) st
        { stored := r.1, extractorCalled := true, state := r.2 }

/-- Content string built by `store_drawing_knowledge` (Python truthiness:
an empty character list and empty strings contribute nothing). -/
def drawingContent (user_request : String)
    (image_description gemgem_critique : Option String)
    (matched_characters : Option (List String))
    (is_gdraw is_edit : Bool) : String :=
  let draw_type := if is_edit then "edited" else if is_gdraw then "guided draw" else "drew"
  let base := "I " ++ draw_type ++ " something for the user.\n"
    ++ "They asked for: " ++ user_request ++ "\n"
  let chars := match matched_characters with
    | some cs =>
      if cs.isEmpty then ""
      else "I included these characters: " ++ String.intercalate ", " cs ++ "\n"
    | none => ""
  let desc := match image_description with
    | some d => if d = "" then "" else "The result shows: " ++ d ++ "\n"
    | none => ""
  let crit := match gemgem_critique with
    | some c => if c = "" then "" else "My reaction: " ++ c
    | none => ""
  base ++ chars ++ desc ++ crit

/-- Embedding of `store_drawing_knowledge`: embed the built content
(storing the literal `"[]"` when embedding fails), then a plain
`INSERT INTO knowledge` (a duplicate primary key raises, is caught, and
returns `None` with the state unchanged).  Note: unlike
`store_knowledge`, this writer never rebuilds the BM25 index. -/
def store_drawing_knowledge (embed : String → Option (List ℚ)) (drawId : String)
    (user_request : String) (enhanced_prompt : Option String)
    (image_description gemgem_critique : Option String)
    (matched_characters : Option (List String))
    (user_id : Option String) (is_gdraw is_edit : Bool)
    (st : RagState) : Option String × RagState :=
  let content := drawingContent user_request image_description gemgem_critique
    matched_characters is_gdraw is_edit
  let e := embed content
  if st.knowledge.any (fun r => r.id = drawId) then (none, st)
  else
    let row : KnowledgeRow :=
      { id := drawId, content := content, embedding := some (e.getD []),
        knowledge_type := "drawing",
        source := some ("user_" ++ user_id.getD "None"),
        metadata := some emptyMetadata }
    (some drawId, { knowledge := st.knowledge ++ [row], bm25 := st.bm25 })

/-- Embedding of `_standardize_query`: without an API key return the
query unchanged; `llmText` is the rewriter call's outcome (`none`
models any exception).  The response is stripped, double quotes are
removed, and rewrites shorter than 3 characters or longer than twice
the input are rejected in favor of the original. -/
def standardize_query (hasKey : Bool) (llmText : Option String) (query : String) : String :=
  if !hasKey then query
  else
    match llmText with
    | none => query
    | some t =>
      let clean := pyRemoveQuotes (pyStrip t)
      if clean.length < 3 ∨ clean.length > query.length * 2 then query else clean

/-- One entry of the `candidates` dict / `final_results` list of
`retrieve_relevant_knowledge` (the item dicts built during retrieval). -/
structure Candidate where
  id : String
  content : String
  ctype : String
  src : String
  vectorScore : ℚ
  metadata : RagMetadata
  bm25Score : Option ℚ := none
  rerankScore : Option ℚ := none
  deriving DecidableEq

/-- Semantic candidate generation: scan every `knowledge` row in table
order; rows whose embedding column is falsy are skipped, as are rows
whose decoded embedding is empty or of a different dimension than the
query vector (the numpy cosine raises / yields NaN there and the
`except: pass` drops the row); keep rows scoring at least
`threshold - 0.15`. -/
def semanticScan (cosine : List ℚ → List ℚ → ℚ) (q : List ℚ) (threshold : ℚ) :
    List KnowledgeRow → List Candidate
  | [] => []
  | r :: rs =>
    let rest := semanticScan cosine q threshold rs
    match r.embedding with
    | none => rest
    | some e =>
      if e.isEmpty ∨ e.length ≠ q.length then rest
      else
        let score := cosine q e
        if ratSub threshold (mkRat 15 100) ≤ score then
          { id := r.id, content := r.content, ctype := r.knowledge_type,
            src := "knowledge", vectorScore := score,
            metadata := r.metadata.getD emptyMetadata } :: rest
        else rest

/-- One iteration of the BM25 loop body for a positively-scored doc: a
doc id not yet among the candidates is appended (content taken from the
index corpus, metadata re-fetched from the table by id, defaulting to
`{}` when the id is stale); in every case `bm25_score` is set on the
entry. -/
def addBm25Candidate (st : RagState) (cands : List Candidate)
    (doc_id doc_content : String) (score : ℚ) : List Candidate :=
  if cands.any (fun c => c.id = doc_id) then
    cands.map (fun c => if c.id = doc_id then { c with bm25Score := some score } else c)
  else
    let meta := ((st.knowledge.find? (fun r => r.id = doc_id)).bind
      (fun r => r.metadata)).getD emptyMetadata
    cands ++ [{ id := doc_id, content := doc_content, ctype := "knowledge",
                src := "bm25", vectorScore := 0, metadata := meta,
                bm25Score := some score }]

/-- Lexical candidate generation: when the BM25 index exists, score the
tokenized corpus against the tokenized clean query, walk the top-20
indices by descending score (argsort order is modelled as stable), and
merge every positively-scored doc into the candidate map. -/
def bm25Stage (bm25Fn : List (List String) → List String → List ℚ)
    (clean : String) (st : RagState) (cands : List Candidate) : List Candidate :=
  match st.bm25 with
  | none => cands
  | some b =>
    let tq := pyTokenize clean
    let scores := bm25Fn (b.corpus.map pyTokenize) tq
    let idxs := (pySortDesc (fun i => scores.getD i 0) (List.range scores.length)).take 20
    idxs.foldl (fun acc i =>
      let score := scores.getD i 0
      if 0 < score then
        match b.ids.get? i, b.corpus.get? i with
        | some did, some cont => addBm25Candidate st acc did cont score
        | _, _ => acc
      else acc) cands

/-- The merged candidate pool of one retrieval call (steps 1-4 of
`retrieve_relevant_knowledge`: standardize, encode, vector scan, BM25
merge), empty when query encoding fails or yields a falsy vector. -/
def retrieveCandidates (hasKey : Bool) (llmText : Option String)
    (qEmbed : String → Option (List ℚ)) (cosine : List ℚ → List ℚ → ℚ)
    (bm25Fn : List (List String) → List String → List ℚ)
    (query : String) (threshold : ℚ) (st : RagState) : List Candidate :=
  let clean := standardize_query hasKey llmText query
  match qEmbed clean with
  | none => []
  | some q =>
    if q.isEmpty then []
    else bm25Stage bm25Fn clean st (semanticScan cosine q threshold st.knowledge)

/-- The fully ranked result list of one retrieval call before the final
`[:limit]` slice: with a cross-encoder, attach a rerank score to every
candidate, keep the strictly positive ones and sort them by rerank
score descending; without one, sort the candidates by vector score. -/
def rankedResults (hasKey : Bool) (llmText : Option String)
    (qEmbed : String → Option (List ℚ)) (cosine : List ℚ → List ℚ → ℚ)
    (bm25Fn : List (List String) → List String → List ℚ)
    (crossEnc : Option (String → String → ℚ))
    (query : String) (threshold : ℚ) (st : RagState) : List Candidate :=
  let clean := standardize_query hasKey llmText query
  let cands := retrieveCandidates hasKey llmText qEmbed cosine bm25Fn query threshold st
  match crossEnc with
  | some ce =>
    let withR := cands.map (fun c => { c with rerankScore := some (ce clean c.content) })
    let surv := withR.filter (fun c => 0 < c.rerankScore.getD 0)
    pySortDesc (fun c => c.rerankScore.getD 0) surv
  | none => pySortDesc (fun c => c.vectorScore) cands

/-- Embedding of `retrieve_relevant_knowledge` (lines 690-817 of
`rag.py`): standardize the query, encode it (falsy vector → `[]`),
build the merged candidate pool, return `[]` when it is empty, then
re-rank / fall back to vector order, and slice to `limit`. -/
def retrieve_relevant_knowledge (hasKey : Bool) (llmText : Option String)
    (qEmbed : String → Option (List ℚ)) (cosine : List ℚ → List ℚ → ℚ)
    (bm25Fn : List (List String) → List String → List ℚ)
    (crossEnc : Option (String → String → ℚ))
    (query : String) (limit : Int) (threshold : ℚ) (st : RagState) : List Candidate :=
  let clean := standardize_query hasKey llmText query
  match qEmbed clean with
  | none => []
  | some q =>
    if q.isEmpty then []
    else
      let cands := bm25Stage bm25Fn clean st (semanticScan cosine q threshold st.knowledge)
      if cands.isEmpty then []
      else
        match crossEnc with
        | some ce =>
          let withR := cands.map (fun c => { c with rerankScore := some (ce clean c.content) })
          let surv := withR.filter (fun c => 0 < c.rerankScore.getD 0)
          pySliceTo (pySortDesc (fun c => c.rerankScore.getD 0) surv) limit
        | none => pySliceTo (pySortDesc (fun c => c.vectorScore) cands) limit

/-- Embedding of the legacy `retrieve_memories`: it forwards to
`retrieve_relevant_knowledge`, dropping `memory_type` entirely. -/
def retrieve_memories (hasKey : Bool) (llmText : Option String)
    (qEmbed : String → Option (List ℚ)) (cosine : List ℚ → List ℚ → ℚ)
    (bm25Fn : List (List String) → List String → List ℚ)
    (crossEnc : Option (String → String → ℚ))
    (query : String) (limit : Int) (memory_type : Option String)
    (threshold : ℚ) (st : RagState) : List Candidate :=
  retrieve_relevant_knowledge hasKey llmText qEmbed cosine bm25Fn crossEnc
    query limit threshold st

/-- Rendering of one retrieved item inside the formatter's loop:
`user_fact` items with a truthy username are labeled, everything else is
a plain bullet. -/
def renderLine (item : Candidate) : String :=
  match item.metadata.username with
  | some u =>
    if item.ctype = "user_fact" ∧ u ≠ "" then "- [" ++ u ++ "] " ++ item.content
    else "- " ++ item.content
  | none => "- " ++ item.content

/-- Header block of the formatter: the fixed title plus, for a truthy
current username, the one-line usage instruction. -/
def headerLines (current_username : Option String) : List String :=
  "RELEVANT MEMORY FACTS:" ::
    (match current_username with
     | some u =>
       if u = "" then []
       else ["(Current conversation is with " ++ u
         ++ ". Use facts about other users only when directly relevant to the topic.)"]
     | none => [])

/-- Embedding of `format_knowledge_for_context`: empty input yields the
empty string, otherwise the newline-joined header block and one rendered
line per item. -/
def format_knowledge_for_context (knowledge : List Candidate)
    (current_username : Option String) : String :=
  if knowledge.isEmpty then ""
  else String.intercalate "\n" (headerLines current_username ++ knowledge.map renderLine)

/-- The final re-ranking stage expressed only on `(id, content)` pairs:
which ids survive and in which order is a function of the candidates'
ids and contents (through the cross-encoder) alone. -/
def rerankOrderOn (ce : String → String → ℚ) (clean : String)
    (pairs : List (String × String)) (limit : Int) : List String :=
  (pySliceTo
    (pySortDesc (fun p => ce clean p.2) (pairs.filter (fun p => 0 < ce clean p.2)))
    limit).map Prod.fst

theorem pySliceTo_sublist (l : List α) (limit : Int) : (pySliceTo l limit).Sublist l := by
  unfold pySliceTo
  split <;> exact List.take_sublist _ _

theorem pySliceTo_nil (limit : Int) : pySliceTo ([] : List α) limit = [] := by
  unfold pySliceTo
  split <;> simp

theorem pySliceTo_map (g : α → β) (l : List α) (limit : Int) :
    pySliceTo (l.map g) limit = (pySliceTo l limit).map g := by
  unfold pySliceTo
  rw [List.length_map]
  split <;> rw [List.map_take]

theorem pySliceTo_length_le (l : List α) (limit : Int) (h : 0 ≤ limit) :
    ((pySliceTo l limit).length : Int) ≤ limit := by
  unfold pySliceTo
  rw [if_neg (by omega)]
  rw [List.length_take]
  omega

theorem pySortDesc_perm (key : α → ℚ) (l : List α) : (pySortDesc key l).Perm l :=
  List.perm_insertionSort _ l

theorem pySortDesc_sorted (key : α → ℚ) (l : List α) :
    (pySortDesc key l).Pairwise (fun a b => key b ≤ key a) := by
  haveI : IsTotal α (fun a b => key b ≤ key a) := ⟨fun a b => le_total (key b) (key a)⟩
  haveI : IsTrans α (fun a b => key b ≤ key a) :=
    ⟨fun _ _ _ h1 h2 => le_trans h2 h1⟩
  exact List.sorted_insertionSort _ l

theorem orderedInsert_key_map (key : β → ℚ) (g : α → β) (a : α) (l : List α) :
    List.orderedInsert (fun x y => key y ≤ key x) (g a) (l.map g)
      = (List.orderedInsert (fun x y => key (g y) ≤ key (g x)) a l).map g := by
  induction l with
  | nil => rfl
  | cons b bs ih =>
    by_cases h : key (g b) ≤ key (g a)
    · simp [List.orderedInsert, h]
    · simp [List.orderedInsert, h, ih]

theorem pySortDesc_map (key : β → ℚ) (g : α → β) (l : List α) :
    pySortDesc key (l.map g) = (pySortDesc (fun a => key (g a)) l).map g := by
  induction l with
  | nil => rfl
  | cons a as ih =>
    simp only [pySortDesc, List.map_cons, List.insertionSort] at ih ⊢
    rw [ih]
    exact orderedInsert_key_map key g a _

theorem filter_map_eq (p : β → Bool) (g : α → β) (l : List α) :
    (l.map g).filter p = (l.filter (fun a => p (g a))).map g := by
  induction l with
  | nil => rfl
  | cons a as ih =>
    by_cases h : p (g a)
    · simp [List.filter_cons, h, ih]
    · simp [List.filter_cons, h, ih]

theorem retrieve_eq_slice_ranked (hasKey : Bool) (llmText : Option String)
    (qEmbed : String → Option (List ℚ)) (cosine : List ℚ → List ℚ → ℚ)
    (bm25Fn : List (List String) → List String → List ℚ)
    (crossEnc : Option (String → String → ℚ))
    (query : String) (limit : Int) (threshold : ℚ) (st : RagState) :
    retrieve_relevant_knowledge hasKey llmText qEmbed cosine bm25Fn crossEnc
        query limit threshold st
      = pySliceTo (rankedResults hasKey llmText qEmbed cosine bm25Fn crossEnc
          query threshold st) limit := by
  unfold retrieve_relevant_knowledge rankedResults retrieveCandidates
  cases hq : qEmbed (standardize_query hasKey llmText query) with
  | none => cases crossEnc <;> simp [hq, pySortDesc, pySliceTo_nil]
  | some q =>
    by_cases hqe : q = []
    · cases crossEnc <;> simp [hq, hqe, pySortDesc, pySliceTo_nil]
    · by_cases hc : bm25Stage bm25Fn (standardize_query hasKey llmText query) st
          (semanticScan cosine q threshold st.knowledge) = []
      · cases crossEnc <;> simp [hq, hqe, hc, pySortDesc, pySliceTo_nil]
      · cases crossEnc <;> simp [hq, hqe, hc]

/-- C10: for every query, limit, threshold, and every value of
memory_type, the legacy retrieve_memories returns exactly the same
result as retrieve_relevant_knowledge with the same query, limit and
threshold; the memory_type argument is ignored and performs no
filtering. -/
theorem retrieve_memories_equiv (hasKey : Bool) (llmText : Option String)
    (qEmbed : String → Option (List ℚ)) (cosine : List ℚ → List ℚ → ℚ)
    (bm25Fn : List (List String) → List String → List ℚ)
    (crossEnc : Option (String → String → ℚ))
    (query : String) (limit : Int) (memory_type : Option String)
    (threshold : ℚ) (st : RagState) :
    retrieve_memories hasKey llmText qEmbed cosine bm25Fn crossEnc
        query limit memory_type threshold st
      = retrieve_relevant_knowledge hasKey llmText qEmbed cosine bm25Fn crossEnc
          query limit threshold st := rfl

/-- C4: for every query, if encoding the normalized query into a query
embedding fails (returns None), retrieve_relevant_knowledge returns the
empty list (and, being a total function of its inputs, does not
raise). -/
theorem query_encoding_failure_empty (hasKey : Bool) (llmText : Option String)
    (qEmbed : String → Option (List ℚ)) (cosine : List ℚ → List ℚ → ℚ)
    (bm25Fn : List (List String) → List String → List ℚ)
    (crossEnc : Option (String → String → ℚ))
    (query : String) (limit : Int) (threshold : ℚ) (st : RagState)
    (h : qEmbed (standardize_query hasKey llmText query) = none) :
    retrieve_relevant_knowledge hasKey llmText qEmbed cosine bm25Fn crossEnc
        query limit threshold st = [] := by
  simp only [retrieve_relevant_knowledge]
  rw [h]

/-- Witness for C4: a concrete retrieval with a failing embedding
provider returns the empty list. -/
theorem query_encoding_failure_empty_witness :
    retrieve_relevant_knowledge false none (fun _ => none) (fun _ _ => 0)
      (fun _ _ => []) none "what is Hiep working on" 5 (mkRat 78 100) ⟨[], none⟩ = [] :=
  query_encoding_failure_empty false none (fun _ => none) (fun _ _ => 0)
    (fun _ _ => []) none "what is Hiep working on" 5 (mkRat 78 100) ⟨[], none⟩ rfl

/-- C6: for every exchange in which the stripped user utterance is
shorter than 15 characters and the stripped reply is shorter than 50,
store_conversation returns the no-fact result None with the state
unchanged and without reaching the LLM fact-extraction call. -/
theorem short_exchange_prefilter (simGe : List ℚ → List ℚ → ℚ → Bool)
    (embed : String → Option (List ℚ)) (extractResult : Option String)
    (kid user_message gemgem_response : String)
    (user_id username channel_id guild_id : Option String) (st : RagState)
    (h1 : (pyStrip user_message).length < 15) (h2 : (pyStrip gemgem_response).length < 50) :
    store_conversation simGe embed extractResult kid user_message gemgem_response
        user_id username channel_id guild_id st
      = { stored := none, extractorCalled := false, state := st } := by
  simp only [store_conversation]
  rw [if_pos ⟨h1, h2⟩]

/-- Witness for C6: a concrete greeting exchange is rejected by the
pre-filter with no extraction call. -/
theorem short_exchange_prefilter_witness :
    (pyStrip "hi").length < 15 ∧ (pyStrip "yo").length < 50 ∧
    store_conversation (fun _ _ _ => true) (fun _ => some [1]) (some "a fact") "k1"
        "hi" "yo" (some "42") (some "Hiep") none none ⟨[], none⟩
      = { stored := none, extractorCalled := false, state := ⟨[], none⟩ } :=
  ⟨by decide, by decide,
    short_exchange_prefilter (fun _ _ _ => true) (fun _ => some [1]) (some "a fact")
      "k1" "hi" "yo" (some "42") (some "Hiep") none none ⟨[], none⟩
      (by decide) (by decide)⟩

/-- C7: standardize_query returns either the original query unchanged or
a rewrite of length at most twice the input length; a rewrite longer
than twice the input is rejected in favor of the original; and a failed
rewriter call returns the original query. -/
theorem standardize_query_bound_fallback (hasKey : Bool) (llmText : Option String)
    (query : String) :
    (standardize_query hasKey llmText query = query
      ∨ (standardize_query hasKey llmText query).length ≤ 2 * query.length)
    ∧ standardize_query hasKey none query = query
    ∧ ∀ t, (pyRemoveQuotes (pyStrip t)).length > 2 * query.length →
        standardize_query hasKey (some t) query = query := by
  refine ⟨?_, ?_, ?_⟩
  · simp only [standardize_query]
    split
    · exact Or.inl rfl
    · split
      · exact Or.inl rfl
      · split
        · exact Or.inl rfl
        · next hcond =>
          right
          push_neg at hcond
          omega
  · cases hasKey <;> rfl
  · intro t h
    cases hasKey with
    | false => rfl
    | true =>
      simp only [standardize_query, Bool.not_true]
      rw [if_neg (by simp)]
      rw [if_pos (Or.inr (by omega))]

/-- Witness for C7: a concrete rewrite more than twice as long as the
input falls back to the original query. -/
theorem standardize_query_bound_fallback_witness :
    standardize_query true (some "abcdef") "ab" = "ab" :=
  (standardize_query_bound_fallback true (some "abcdef") "ab").2.2 "abcdef" (by decide)

/-- C9: if embedding the first-2000-character truncation of the content
fails, store_knowledge returns None and leaves the knowledge table and
the keyword index unchanged; and every row present after any
store_knowledge call either was already stored or carries an
embedding. -/
theorem store_embedding_failure_atomic (embed : String → Option (List ℚ))
    (kid content knowledge_type : String) (source : Option String)
    (metadata : Option RagMetadata) (st : RagState) :
    (embed (pyTake content 2000) = none →
      store_knowledge embed kid content knowledge_type source metadata st = (none, st))
    ∧ ∀ r ∈ (store_knowledge embed kid content knowledge_type source metadata st).2.knowledge,
        r ∈ st.knowledge ∨ r.embedding ≠ none := by
  constructor
  · intro h
    simp [store_knowledge, h]
  · intro r hr
    cases he : embed (pyTake content 2000) with
    | none =>
      simp only [store_knowledge, he] at hr
      exact Or.inl hr
    | some e =>
      simp only [store_knowledge, he] at hr
      rcases List.mem_append.mp hr with h1 | h2
      · exact Or.inl (List.mem_of_mem_filter h1)
      · right
        rw [List.mem_singleton.mp h2]
        simp

/-- Witness for C9: a concrete store with a failing embedding provider
returns None and leaves the state untouched. -/
theorem store_embedding_failure_atomic_witness :
    store_knowledge (fun _ => none) "k1" "some content" "general" none none ⟨[], none⟩
      = (none, ⟨[], none⟩) :=
  (store_embedding_failure_atomic (fun _ => none) "k1" "some content" "general"
    none none ⟨[], none⟩).1 rfl

/-- C8: format_knowledge_for_context of an empty list is the empty
string with no header; in a non-empty list every item of type user_fact
carrying a truthy username renders with that username as a label, items
of other types render unlabeled, and the output is the header block
followed by one rendered line per item. -/
theorem formatter_contract (cu : Option String) :
    format_knowledge_for_context [] cu = ""
    ∧ (∀ it : Candidate, ∀ u, it.ctype = "user_fact" → it.metadata.username = some u →
        u ≠ "" → renderLine it = "- [" ++ u ++ "] " ++ it.content)
    ∧ (∀ it : Candidate, it.ctype ≠ "user_fact" → renderLine it = "- " ++ it.content)
    ∧ ∀ items : List Candidate, items ≠ [] →
        format_knowledge_for_context items cu
          = String.intercalate "\n" (headerLines cu ++ items.map renderLine) := by
  refine ⟨rfl, ?_, ?_, ?_⟩
  · intro it u h1 h2 h3
    simp only [renderLine, h2]
    rw [if_pos ⟨h1, h3⟩]
  · intro it h
    simp only [renderLine]
    cases it.metadata.username with
    | none => rfl
    | some u => exact if_neg (fun hc => h hc.1)
  · intro items h
    simp only [format_knowledge_for_context]
    rw [if_neg]
    simp [h]

/-- Witness for C8: a concrete user_fact item renders with its owning
username as a label. -/
theorem formatter_contract_witness :
    renderLine { id := "k", content := "Hiep is building a Discord bot",
                 ctype := "user_fact", src := "knowledge", vectorScore := 1,
                 metadata := { username := some "Hiep", user_id := some "42" } }
      = "- [Hiep] Hiep is building a Discord bot" :=
  (formatter_contract none).2.1 _ "Hiep" rfl rfl (by decide)

/-- A similarity comparator that reports two identical embedding vectors
as meeting any threshold (the cosine of equal non-zero vectors is 1). -/
def simGeEq : List ℚ → List ℚ → ℚ → Bool := fun a b _ => decide (a = b)

/-- A stored user_fact row for user id 42. -/
def factRow : KnowledgeRow :=
  { id := "know_f1", content := "Hiep is building a Discord bot",
    embedding := some [1, 0], knowledge_type := "user_fact",
    source := some "conversation_Hiep",
    metadata := some { username := some "Hiep", user_id := some "42" } }

/-- A state holding one persisted user_fact for user id 42. -/
def dedupState : RagState :=
  { knowledge := [factRow],
    bm25 := some { ids := ["know_f1"], corpus := ["Hiep is building a Discord bot"] } }

/-- A candidate fact for the same user whose embedding recurs
identically (similarity 1, at or above the 0.90 threshold). -/
def paraphrasedFact : String := "Hiep is developing a Discord bot called GemGem"

/-- C1 (refuted, code bug): the dedup SELECT filters on the column
is_active, which the knowledge table created by _init_db does not have,
so sqlite raises OperationalError and the handler returns False.  Hence
for a persisted user_fact F of a user and a candidate for the same user
whose embedding is identical to the stored one (cosine similarity 1,
at or above the 0.90 threshold, and here even under a comparator that
reports the pair as duplicates), _is_duplicate_fact reports
non-duplicate and store_conversation persists the candidate: both facts
end up stored as user_fact rows for that user, contradicting the claim
that at most one is persisted. -/
theorem dedup_is_active_code_bug :
    simGeEq [1, 0] [1, 0] (mkRat 90 100) = true
    ∧ ("is_active" ∈ dupCheckQueryColumns ∧ "is_active" ∉ knowledgeTableColumns)
    ∧ is_duplicate_fact simGeEq (fun _ => some [1, 0]) paraphrasedFact (some "42")
        (mkRat 90 100) dedupState = false
    ∧ (store_conversation simGeEq (fun _ => some [1, 0]) (some paraphrasedFact) "know_f2"
        "I am still working on my Discord bot" "Nice, tell me more about how it works!"
        (some "42") (some "Hiep") none none dedupState).stored = some "know_f2"
    ∧ ((store_conversation simGeEq (fun _ => some [1, 0]) (some paraphrasedFact) "know_f2"
        "I am still working on my Discord bot" "Nice, tell me more about how it works!"
        (some "42") (some "Hiep") none none dedupState).state.knowledge.filter
          (fun r => r.knowledge_type = "user_fact"
            ∧ (r.metadata.bind (fun m => m.user_id)) = some "42")).length = 2 := by
  decide

theorem rebuild_bm25_index_append (l : List KnowledgeRow) (r : KnowledgeRow)
    (old : Option Bm25State) :
    ∃ b, rebuild_bm25_index (l ++ [r]) old = some b
      ∧ r.id ∈ b.ids ∧ r.content ∈ b.corpus := by
  refine ⟨⟨(l ++ [r]).map (fun x => x.id), (l ++ [r]).map (fun x => x.content)⟩, ?_, ?_, ?_⟩
  · simp [rebuild_bm25_index]
  · exact List.mem_map_of_mem _ (List.mem_append_right _ (List.mem_singleton_self r))
  · exact List.mem_map_of_mem _ (List.mem_append_right _ (List.mem_singleton_self r))

/-- The outcome of a concrete drawing write on an empty store. -/
def drawOutcome : Option String × RagState :=
  store_drawing_knowledge (fun _ => some [1, 0]) "draw_1" "a kitten" none
    (some "a cute kitten") none none (some "42") false false ⟨[], none⟩

/-- Counterexample for C2: a completed store_drawing_knowledge write
inserts a row into the knowledge table but leaves the BM25 index
exactly as it was (here: absent), while rebuilding from the store would
produce a non-empty index — so after this write the keyword index does
not reflect the committed write. -/
theorem drawing_write_skips_index_rebuild_cex :
    drawOutcome.1 = some "draw_1"
    ∧ drawOutcome.2.knowledge.length = 1
    ∧ drawOutcome.2.bm25 = none
    ∧ rebuild_bm25_index drawOutcome.2.knowledge none ≠ drawOutcome.2.bm25 := by
  decide

/-- C2 amended: store_knowledge rebuilds the BM25 keyword index from the
updated table after every completed write (in particular the fresh id
and content are indexed), but store_drawing_knowledge inserts into the
knowledge table without rebuilding: after a drawing write the index is
exactly the previous index, so the invariant holds only for
store_knowledge. -/
theorem index_rebuild_amended (embed : String → Option (List ℚ))
    (kid content knowledge_type : String) (source : Option String)
    (metadata : Option RagMetadata)
    (embedD : String → Option (List ℚ)) (drawId user_request : String)
    (enhanced_prompt image_description gemgem_critique : Option String)
    (matched_characters : Option (List String)) (user_id : Option String)
    (is_gdraw is_edit : Bool) (st : RagState) :
    (∀ e, embed (pyTake content 2000) = some e →
      ∃ b, (store_knowledge embed kid content knowledge_type source metadata st).2.bm25 = some b
        ∧ kid ∈ b.ids ∧ content ∈ b.corpus
        ∧ (store_knowledge embed kid content knowledge_type source metadata st).2.bm25
            = rebuild_bm25_index
                (store_knowledge embed kid content knowledge_type source metadata st).2.knowledge
                st.bm25)
    ∧ (store_drawing_knowledge embedD drawId user_request enhanced_prompt image_description
        gemgem_critique matched_characters user_id is_gdraw is_edit st).2.bm25 = st.bm25 := by
  constructor
  · intro e he
    simp only [store_knowledge, he]
    obtain ⟨b, hb, hid, hcont⟩ :=
      rebuild_bm25_index_append (st.knowledge.filter (fun r => r.id ≠ kid))
        { id := kid, content := content, embedding := some e,
          knowledge_type := knowledge_type, source := source,
          metadata := some (metadata.getD emptyMetadata) }
        st.bm25
    exact ⟨b, hb, hid, hcont, trivial⟩
  · simp only [store_drawing_knowledge]
    split
    · rfl
    · rfl

/-- Witness for C2 amended: a concrete successful store_knowledge write
rebuilds the index and indexes the fresh row. -/
theorem index_rebuild_amended_witness :
    ∃ b, (store_knowledge (fun _ => some [1, 0]) "k1" "hello world" "general" none none
        ⟨[], none⟩).2.bm25 = some b
      ∧ "k1" ∈ b.ids ∧ "hello world" ∈ b.corpus
      ∧ (store_knowledge (fun _ => some [1, 0]) "k1" "hello world" "general" none none
          ⟨[], none⟩).2.bm25
          = rebuild_bm25_index
              (store_knowledge (fun _ => some [1, 0]) "k1" "hello world" "general" none none
                ⟨[], none⟩).2.knowledge
              (⟨[], none⟩ : RagState).bm25 :=
  (index_rebuild_amended (fun _ => some [1, 0]) "k1" "hello world" "general" none none
    (fun _ => none) "d1" "r" none none none none none false false ⟨[], none⟩).1 [1, 0] rfl

/-- C3: when the re-ranker is available, retrieve_relevant_knowledge
discards every merged candidate whose rerank score is at most 0, every
returned item has a strictly positive rerank score, the returned list is
sorted by rerank score descending, at most limit items are returned,
and the returned ids in their final order are a function of the merged
candidate (id, content) pairs and the cross-encoder alone — the
semantic and lexical scores attached to the candidates never influence
the final order. -/
theorem rerank_final_ordering (hasKey : Bool) (llmText : Option String)
    (qEmbed : String → Option (List ℚ)) (cosine : List ℚ → List ℚ → ℚ)
    (bm25Fn : List (List String) → List String → List ℚ)
    (ce : String → String → ℚ) (query : String) (limit : Int)
    (threshold : ℚ) (st : RagState) (h : 0 ≤ limit) :
    (∀ c ∈ retrieve_relevant_knowledge hasKey llmText qEmbed cosine bm25Fn (some ce)
        query limit threshold st, 0 < c.rerankScore.getD 0)
    ∧ (retrieve_relevant_knowledge hasKey llmText qEmbed cosine bm25Fn (some ce)
        query limit threshold st).Pairwise
          (fun a b => b.rerankScore.getD 0 ≤ a.rerankScore.getD 0)
    ∧ ((retrieve_relevant_knowledge hasKey llmText qEmbed cosine bm25Fn (some ce)
        query limit threshold st).length : Int) ≤ limit
    ∧ (retrieve_relevant_knowledge hasKey llmText qEmbed cosine bm25Fn (some ce)
        query limit threshold st).map (fun c => c.id)
        = rerankOrderOn ce (standardize_query hasKey llmText query)
            ((retrieveCandidates hasKey llmText qEmbed cosine bm25Fn query threshold st).map
              (fun c => (c.id, c.content)))
            limit := by
  have hres := retrieve_eq_slice_ranked hasKey llmText qEmbed cosine bm25Fn (some ce)
    query limit threshold st
  have hrank : rankedResults hasKey llmText qEmbed cosine bm25Fn (some ce) query threshold st
      = pySortDesc (fun c => c.rerankScore.getD 0)
          (((retrieveCandidates hasKey llmText qEmbed cosine bm25Fn query threshold st).map
              (fun c =>
                { c with rerankScore := some (ce (standardize_query hasKey llmText query) c.content) })).filter
            (fun c => 0 < c.rerankScore.getD 0)) := rfl
  refine ⟨?_, ?_, ?_, ?_⟩
  · intro c hc
    rw [hres, hrank] at hc
    have hc2 := (pySliceTo_sublist _ _).subset hc
    have hc3 := (pySortDesc_perm _ _).mem_iff.mp hc2
    exact of_decide_eq_true (List.mem_filter.mp hc3).2
  · rw [hres, hrank]
    exact List.Pairwise.sublist (pySliceTo_sublist _ _) (pySortDesc_sorted _ _)
  · rw [hres]
    exact pySliceTo_length_le _ _ h
  · rw [hres, hrank]
    unfold rerankOrderOn
    rw [filter_map_eq, pySortDesc_map, pySliceTo_map, List.map_map]
    rw [filter_map_eq, pySortDesc_map, pySliceTo_map, List.map_map]
    rfl

/-- Witness for C3: the concrete instantiation on an empty store and a
non-negative limit. -/
theorem rerank_final_ordering_witness :
    (∀ c ∈ retrieve_relevant_knowledge false none (fun _ => some [1]) (fun _ _ => 1)
        (fun _ _ => []) (some (fun _ _ => 1)) "q" 5 (mkRat 78 100) ⟨[], none⟩,
        0 < c.rerankScore.getD 0)
    ∧ (retrieve_relevant_knowledge false none (fun _ => some [1]) (fun _ _ => 1)
        (fun _ _ => []) (some (fun _ _ => 1)) "q" 5 (mkRat 78 100) ⟨[], none⟩).Pairwise
          (fun a b => b.rerankScore.getD 0 ≤ a.rerankScore.getD 0)
    ∧ ((retrieve_relevant_knowledge false none (fun _ => some [1]) (fun _ _ => 1)
        (fun _ _ => []) (some (fun _ _ => 1)) "q" 5 (mkRat 78 100) ⟨[], none⟩).length : Int) ≤ 5
    ∧ (retrieve_relevant_knowledge false none (fun _ => some [1]) (fun _ _ => 1)
        (fun _ _ => []) (some (fun _ _ => 1)) "q" 5 (mkRat 78 100) ⟨[], none⟩).map (fun c => c.id)
        = rerankOrderOn (fun _ _ => 1) (standardize_query false none "q")
            ((retrieveCandidates false none (fun _ => some [1]) (fun _ _ => 1)
                (fun _ _ => []) "q" (mkRat 78 100) ⟨[], none⟩).map (fun c => (c.id, c.content)))
            5 :=
  rerank_final_ordering false none (fun _ => some [1]) (fun _ _ => 1) (fun _ _ => [])
    (fun _ _ => 1) "q" 5 (mkRat 78 100) ⟨[], none⟩ (by decide)

/-- A stored row whose content the concrete cross-encoder prefers. -/
def rowK1 : KnowledgeRow :=
  { id := "k1", content := "alpha", embedding := some [1, 0] }

/-- A second stored row, ranked below the first by the cross-encoder. -/
def rowK2 : KnowledgeRow :=
  { id := "k2", content := "beta", embedding := some [1, 0] }

/-- A two-row store with no BM25 index. -/
def sliceState : RagState := { knowledge := [rowK1, rowK2], bm25 := none }

/-- A concrete cross-encoder preferring the first row. -/
def ceSlice : String → String → ℚ := fun _ c => if c = "alpha" then 2 else 1

/-- Counterexample for C5: there is no boundary validation.  On a
concrete store, with a provider that embeds the empty string, the empty
query yields a NON-empty result (refuting empty query implies empty
result), and the negative limit -1 is passed straight to Python list
slicing: with two ranked survivors the call returns exactly the first
one, dropping the last — not a normalized limit. -/
theorem boundary_validation_cex :
    (retrieve_relevant_knowledge false none (fun _ => some [1, 0]) (fun _ _ => 1)
        (fun _ _ => []) (some ceSlice) "" (-1) (mkRat 78 100) sliceState).map (fun c => c.id)
      = ["k1"]
    ∧ (retrieve_relevant_knowledge false none (fun _ => some [1, 0]) (fun _ _ => 1)
        (fun _ _ => []) (some ceSlice) "" 5 (mkRat 78 100) sliceState).map (fun c => c.id)
      = ["k1", "k2"]
    ∧ retrieve_relevant_knowledge false none (fun _ => some [1, 0]) (fun _ _ => 1)
        (fun _ _ => []) (some ceSlice) "" (-1) (mkRat 78 100) sliceState ≠ [] := by
  decide

/-- C5 amended: retrieve_relevant_knowledge applies no validation at the
public boundary — a negative limit is passed directly to Python list
slicing, returning all but the last |limit| ranked results; and the
query receives no special-casing (in particular none for the empty
string): the result depends on the query only through its standardized
form, and is empty when query encoding fails, not by validation. -/
theorem boundary_slicing_amended (hasKey : Bool) (llmText : Option String)
    (qEmbed : String → Option (List ℚ)) (cosine : List ℚ → List ℚ → ℚ)
    (bm25Fn : List (List String) → List String → List ℚ)
    (crossEnc : Option (String → String → ℚ))
    (query : String) (limit : Int) (threshold : ℚ) (st : RagState)
    (h : limit < 0) :
    retrieve_relevant_knowledge hasKey llmText qEmbed cosine bm25Fn crossEnc
        query limit threshold st
      = (rankedResults hasKey llmText qEmbed cosine bm25Fn crossEnc query threshold st).take
          ((rankedResults hasKey llmText qEmbed cosine bm25Fn crossEnc query threshold st).length
            - limit.natAbs)
    ∧ ∀ query1 query2,
        standardize_query hasKey llmText query1 = standardize_query hasKey llmText query2 →
        retrieve_relevant_knowledge hasKey llmText qEmbed cosine bm25Fn crossEnc
            query1 limit threshold st
          = retrieve_relevant_knowledge hasKey llmText qEmbed cosine bm25Fn crossEnc
              query2 limit threshold st := by
  constructor
  · rw [retrieve_eq_slice_ranked]
    unfold pySliceTo
    rw [if_pos h]
  · intro query1 query2 hq
    simp only [retrieve_relevant_knowledge, hq]

/-- Witness for C5 amended: the concrete instantiation at limit -2. -/
theorem boundary_slicing_amended_witness :
    retrieve_relevant_knowledge false none (fun _ => none) (fun _ _ => 0) (fun _ _ => [])
        none "q" (-2) (mkRat 78 100) ⟨[], none⟩
      = (rankedResults false none (fun _ => none) (fun _ _ => 0) (fun _ _ => [])
          none "q" (mkRat 78 100) ⟨[], none⟩).take
          ((rankedResults false none (fun _ => none) (fun _ _ => 0) (fun _ _ => [])
              none "q" (mkRat 78 100) ⟨[], none⟩).length - (-2 : Int).natAbs) :=
  (boundary_slicing_amended false none (fun _ => none) (fun _ _ => 0) (fun _ _ => [])
    none "q" (-2) (mkRat 78 100) ⟨[], none⟩ (by decide)).1
